import Mathlib

/-!
Verification of the filter/aggregation pipeline of the `lily` service-request
dashboard against its specification.

The TypeScript sources are shallowly embedded as follows:
* enumerated string-union fields become inductive types;
* `ServiceRequest.requestDate`/`resolutionDate` (ISO date strings, compared
  only for equality and chronological order) become integer day numbers,
  with `daysFromCivil` translating a calendar date to its day number;
* JS `number` fields become `ℚ` (all arithmetic in the embedded code is
  exact: sums, divisions and comparisons of finite values);
* a JS division whose result can be non-finite (`NaN`/`Infinity`, from a
  zero denominator) is embedded as `Option ℚ` via `jsDiv`, `none` standing
  for the non-finite result;
* the React context stores become explicit state records with one function
  per mutation; `Date.now().toString()` id generation is embedded by passing
  the generated id as an argument.
-/

/-- `vertical` field: `'Restaurant' | 'Fuel' | 'Grocery'` (src/data/types.ts). -/
inductive Vertical
  | Restaurant
  | Fuel
  | Grocery
  deriving DecidableEq, Repr

/-- `status` field: `'Resolved' | 'In Progress'` (src/data/types.ts). -/
inductive Status
  | Resolved
  | InProgress
  deriving DecidableEq, Repr

/-- `issueCategory` field (src/data/types.ts). -/
inductive IssueCategory
  | APIError
  | BillingInquiry
  | RefundRequest
  | NetworkIssues
  | SoftwareIntegration
  deriving DecidableEq, Repr

/-- `urgency` field: `'Low' | 'Medium' | 'High'` (src/data/types.ts). -/
inductive Urgency
  | Low
  | Medium
  | High
  deriving DecidableEq, Repr

/-- `priority` field: `'Low' | 'Medium' | 'High'` (src/data/types.ts). -/
inductive Priority
  | Low
  | Medium
  | High
  deriving DecidableEq, Repr

/-- `accountHealth` field (src/data/types.ts). -/
inductive AccountHealth
  | Advocate
  | Engaged
  | Neutral
  | Skeptic
  | ChurnRisk
  deriving DecidableEq, Repr

/-- `ServiceRequest` (src/data/types.ts). Dates are embedded as integer day
numbers, durations as exact rationals. -/
structure ServiceRequest where
  requestId : String
  accountName : String
  vertical : Vertical
  siteCount : ℕ
  issueCategory : IssueCategory
  requestDate : ℤ
  status : Status
  urgency : Urgency
  priority : Priority
  timeToRespond : ℚ
  timeToResolution : ℚ
  resolutionDate : ℤ
  accountHealth : AccountHealth
  deriving DecidableEq, Repr

/-- `SLAThresholds` (src/unnamed/part_000, the SLA context). -/
structure SLAThresholds where
  responseTimeHours : ℚ
  resolutionTimeHours : ℚ
  deriving DecidableEq, Repr

/-- `defaultThresholds` (src/unnamed/part_000). -/
def defaultThresholds : SLAThresholds :=
  { responseTimeHours := 12, resolutionTimeHours := 72 }

/-- `isBreachingResponse` (src/unnamed/part_000):
`request.timeToRespond > thresholds.responseTimeHours`. -/
def isBreachingResponse (t : SLAThresholds) (request : ServiceRequest) : Bool :=
  decide (t.responseTimeHours < request.timeToRespond)

/-- `isBreachingResolution` (src/unnamed/part_000):
`request.timeToResolution > thresholds.resolutionTimeHours`. -/
def isBreachingResolution (t : SLAThresholds) (request : ServiceRequest) : Bool :=
  decide (t.resolutionTimeHours < request.timeToResolution)

/-- `isBreachingSLA` (src/unnamed/part_000): disjunction of the two. -/
def isBreachingSLA (t : SLAThresholds) (request : ServiceRequest) : Bool :=
  isBreachingResponse t request || isBreachingResolution t request

/-- `getBreachCount` (src/unnamed/part_000): `data.filter(isBreachingSLA).length`. -/
def getBreachCount (t : SLAThresholds) (data : List ServiceRequest) : ℕ :=
  (data.filter (isBreachingSLA t)).length

/-- C2: for every record collection R and thresholds, `getBreachCount R` equals
the number of records whose `timeToRespond` exceeds `responseTimeHours` or whose
`timeToResolution` exceeds `resolutionTimeHours`; `isBreachingResponse` holds iff
`timeToRespond` is strictly greater than `responseTimeHours`,
`isBreachingResolution` iff `timeToResolution` is strictly greater than
`resolutionTimeHours`, and `isBreachingSLA` is their disjunction. -/
theorem getBreachCount_eq_card_breaching (t : SLAThresholds) (R : List ServiceRequest) :
    getBreachCount t R =
      R.countP (fun r =>
        decide (t.responseTimeHours < r.timeToRespond ∨
          t.resolutionTimeHours < r.timeToResolution)) ∧
    (∀ r, isBreachingResponse t r = true ↔ t.responseTimeHours < r.timeToRespond) ∧
    (∀ r, isBreachingResolution t r = true ↔ t.resolutionTimeHours < r.timeToResolution) ∧
    (∀ r, isBreachingSLA t r = true ↔
      (isBreachingResponse t r = true ∨ isBreachingResolution t r = true)) := by
  refine ⟨?_, ?_, ?_, ?_⟩
  · rw [List.countP_eq_length_filter]
    unfold getBreachCount
    refine congrArg List.length (List.filter_congr ?_)
    intro r _
    simp [isBreachingSLA, isBreachingResponse, isBreachingResolution]
  · intro r
    simp [isBreachingResponse]
  · intro r
    simp [isBreachingResolution]
  · intro r
    simp [isBreachingSLA]

/-- A concrete record used in witnesses and in the worked example of the spec:
record A of the example scenario (requested 2024-01-01, Resolved, responded in
5 hours). -/
def exampleRecordA : ServiceRequest :=
  { requestId := "REQ-001", accountName := "Acme", vertical := Vertical.Restaurant,
    siteCount := 1, issueCategory := IssueCategory.APIError, requestDate := 19723,
    status := Status.Resolved, urgency := Urgency.Low, priority := Priority.Low,
    timeToRespond := 5, timeToResolution := 10, resolutionDate := 19724,
    accountHealth := AccountHealth.Advocate }

/-- Record B of the spec's example scenario (requested 2024-01-02, In Progress,
responded in 20 hours). -/
def exampleRecordB : ServiceRequest :=
  { requestId := "REQ-002", accountName := "Globex", vertical := Vertical.Fuel,
    siteCount := 2, issueCategory := IssueCategory.BillingInquiry, requestDate := 19724,
    status := Status.InProgress, urgency := Urgency.High, priority := Priority.High,
    timeToRespond := 20, timeToResolution := 30, resolutionDate := 19730,
    accountHealth := AccountHealth.Neutral }

/-- C2 witness: the theorem instantiated on the spec's worked example, where the
breach count of `[A, B]` under the default thresholds is 1. -/
theorem getBreachCount_eq_card_breaching_witness :
    getBreachCount defaultThresholds [exampleRecordA, exampleRecordB] =
      List.countP (fun r =>
        decide (defaultThresholds.responseTimeHours < r.timeToRespond ∨
          defaultThresholds.resolutionTimeHours < r.timeToResolution))
        [exampleRecordA, exampleRecordB] ∧
    getBreachCount defaultThresholds [exampleRecordA, exampleRecordB] = 1 :=
  ⟨(getBreachCount_eq_card_breaching defaultThresholds
      [exampleRecordA, exampleRecordB]).1, by decide⟩

/-- `ChartFilters` (src/src/contexts/FilterContext.tsx): one optional selected
value per categorical dimension, `none` = unconstrained. -/
structure ChartFilters where
  vertical : Option Vertical
  status : Option Status
  issueCategory : Option IssueCategory
  accountHealth : Option AccountHealth
  deriving DecidableEq, Repr

/-- `defaultChartFilters` (src/src/contexts/FilterContext.tsx): all four null. -/
def defaultChartFilters : ChartFilters :=
  { vertical := none, status := none, issueCategory := none, accountHealth := none }

/-- The chart-filter stage of `filteredData` in `DashboardContent`
(src/src/data/types.ts, lines 110-122): each non-null dimension is applied as
one `filter` pass over the result of the previous one. -/
def applyChartFilters (data : List ServiceRequest) (f : ChartFilters) : List ServiceRequest :=
  let r1 := match f.vertical with
    | some v => data.filter (fun d => decide (d.vertical = v))
    | none => data
  let r2 := match f.status with
    | some v => r1.filter (fun d => decide (d.status = v))
    | none => r1
  let r3 := match f.issueCategory with
    | some v => r2.filter (fun d => decide (d.issueCategory = v))
    | none => r2
  match f.accountHealth with
  | some v => r3.filter (fun d => decide (d.accountHealth = v))
  | none => r3

/-- The equivalent one-pass predicate, as written in `DataTable.filteredData`
(src/src/components/DataTable.tsx, lines 164-167): a record matches when every
non-null dimension equals the record's field. -/
def matchesChartFilters (f : ChartFilters) (d : ServiceRequest) : Bool :=
  (match f.vertical with
    | some v => decide (d.vertical = v)
    | none => true) &&
  (match f.status with
    | some v => decide (d.status = v)
    | none => true) &&
  (match f.issueCategory with
    | some v => decide (d.issueCategory = v)
    | none => true) &&
  (match f.accountHealth with
    | some v => decide (d.accountHealth = v)
    | none => true)

/-- `g` keeps every constraint of `f` and may add constraints on dimensions
that `f` leaves null: "additional dimensions become non-null". -/
def refinesChartFilters (f g : ChartFilters) : Prop :=
  (f.vertical = none ∨ g.vertical = f.vertical) ∧
  (f.status = none ∨ g.status = f.status) ∧
  (f.issueCategory = none ∨ g.issueCategory = f.issueCategory) ∧
  (f.accountHealth = none ∨ g.accountHealth = f.accountHealth)

theorem applyChartFilters_eq_filter (data : List ServiceRequest) (f : ChartFilters) :
    applyChartFilters data f = data.filter (matchesChartFilters f) := by
  obtain ⟨ov, os, oc, oh⟩ := f
  cases ov <;> cases os <;> cases oc <;> cases oh <;>
    simp only [applyChartFilters, List.filter_filter] <;>
    first
      | · refine List.filter_congr ?_
          intro d _
          simp [matchesChartFilters, Bool.and_assoc, Bool.and_comm, Bool.and_left_comm]
      | · refine (List.filter_eq_self.mpr ?_).symm
          intro d _
          simp [matchesChartFilters]

theorem matchesChartFilters_of_refines {f g : ChartFilters} (h : refinesChartFilters f g)
    (d : ServiceRequest) (hd : matchesChartFilters g d = true) :
    matchesChartFilters f d = true := by
  obtain ⟨h1, h2, h3, h4⟩ := h
  simp only [matchesChartFilters, Bool.and_eq_true] at hd ⊢
  obtain ⟨⟨⟨g1, g2⟩, g3⟩, g4⟩ := hd
  refine ⟨⟨⟨?_, ?_⟩, ?_⟩, ?_⟩
  · rcases h1 with h1 | h1
    · simp [h1]
    · rw [← h1]
      exact g1
  · rcases h2 with h2 | h2
    · simp [h2]
    · rw [← h2]
      exact g2
  · rcases h3 with h3 | h3
    · simp [h3]
    · rw [← h3]
      exact g3
  · rcases h4 with h4 | h4
    · simp [h4]
    · rw [← h4]
      exact g4

theorem length_filter_le_of_imp {α : Type} (l : List α) (p q : α → Bool)
    (h : ∀ a, p a = true → q a = true) :
    (l.filter p).length ≤ (l.filter q).length := by
  induction l with
  | nil => simp
  | cons a l ih =>
    by_cases hp : p a = true
    · simp [List.filter_cons, hp, h a hp]
      omega
    · simp only [List.filter_cons]
      rw [Bool.not_eq_true] at hp
      rw [hp]
      cases hq : q a <;> simp <;> omega

/-- C1: for every record collection R and chart-filter selection F,
`applyChartFilters R F` is a subset of R (a sublist, so order and multiplicity
are preserved); a record is in the result iff it is in R and, for each
dimension with a non-null filter, its field equals the filter value (all four
ANDed, null dimensions unconstrained); and the result's cardinality is
monotonically non-increasing as additional dimensions become non-null. -/
theorem chartFilter_subset_and_mono (R : List ServiceRequest) (F : ChartFilters) :
    List.Sublist (applyChartFilters R F) R ∧
    (∀ r, r ∈ applyChartFilters R F ↔ r ∈ R ∧ matchesChartFilters F r = true) ∧
    (∀ G, refinesChartFilters F G →
      (applyChartFilters R G).length ≤ (applyChartFilters R F).length) := by
  refine ⟨?_, ?_, ?_⟩
  · rw [applyChartFilters_eq_filter]
    exact List.filter_sublist R
  · intro r
    rw [applyChartFilters_eq_filter]
    exact List.mem_filter
  · intro G hFG
    rw [applyChartFilters_eq_filter, applyChartFilters_eq_filter]
    exact length_filter_le_of_imp R _ _ (fun d => matchesChartFilters_of_refines hFG d)

/-- C1 witness: instantiating the monotonicity part at a concrete collection,
the empty filter and the filter that additionally pins `vertical`. -/
theorem chartFilter_subset_and_mono_witness :
    (applyChartFilters [exampleRecordA, exampleRecordB]
        { vertical := some Vertical.Restaurant, status := none,
          issueCategory := none, accountHealth := none }).length ≤
      (applyChartFilters [exampleRecordA, exampleRecordB] defaultChartFilters).length :=
  (chartFilter_subset_and_mono [exampleRecordA, exampleRecordB] defaultChartFilters).2.2
    { vertical := some Vertical.Restaurant, status := none,
      issueCategory := none, accountHealth := none }
    ⟨Or.inl rfl, Or.inl rfl, Or.inl rfl, Or.inl rfl⟩

/-- The metric selector of `generateSparklineData`
(src/src/components/FilterPresets.tsx, line 256). -/
inductive Metric
  | count
  | resolved
  | inProgress
  | responseTime
  | resolutionTime
  | churnRisk
  | slaBreaches
  deriving DecidableEq, Repr

/-- The per-day reducer of `generateSparklineData`: the `switch (metric)` body
applied to `dayData` (src/src/components/FilterPresets.tsx, lines 267-289).
Counts are returned as rationals since the two average metrics divide. Note
the `slaBreaches` case compares against the literals 12 and 72. -/
def metricReduce (m : Metric) (dayData : List ServiceRequest) : ℚ :=
  match m with
  | Metric.count => (dayData.length : ℚ)
  | Metric.resolved =>
      ((dayData.filter (fun d => decide (d.status = Status.Resolved))).length : ℚ)
  | Metric.inProgress =>
      ((dayData.filter (fun d => decide (d.status = Status.InProgress))).length : ℚ)
  | Metric.responseTime =>
      if 0 < dayData.length then
        (dayData.foldl (fun sum d => sum + d.timeToRespond) 0) / (dayData.length : ℚ)
      else 0
  | Metric.resolutionTime =>
      if 0 < dayData.length then
        (dayData.foldl (fun sum d => sum + d.timeToResolution) 0) / (dayData.length : ℚ)
      else 0
  | Metric.churnRisk =>
      ((dayData.filter (fun d => decide (d.accountHealth = AccountHealth.ChurnRisk))).length : ℚ)
  | Metric.slaBreaches =>
      ((dayData.filter (fun d =>
        decide ((12 : ℚ) < d.timeToRespond) || decide ((72 : ℚ) < d.timeToResolution))).length : ℚ)

/-- One data point of the sparkline: the records whose `requestDate` equals the
given calendar day, reduced by the metric (src/src/components/FilterPresets.tsx,
line 265 and the switch body). -/
def sparkPoint (data : List ServiceRequest) (m : Metric) (day : ℤ) : ℚ :=
  metricReduce m (data.filter (fun d => decide (d.requestDate = day)))

/-- The `for (let i = days - 1; i >= 0; i--)` loop of `generateSparklineData`:
iteration `i` pushes the point for day `today - i`, so the produced list runs
from the oldest day `today - (days - 1)` up to `today`. -/
def sparkWindow (data : List ServiceRequest) (m : Metric) (today : ℤ) : ℕ → List ℚ
  | 0 => []
  | n + 1 => sparkPoint data m (today - n) :: sparkWindow data m today n

/-- The literal substituted for an all-zero window
(src/src/components/FilterPresets.tsx, line 294). -/
def sparklinePlaceholder : List ℚ := [1, 2, 1, 3, 2, 4, 3]

/-- `generateSparklineData` (src/src/components/FilterPresets.tsx,
lines 256-298): compute the per-day window, then substitute the placeholder
when every point is exactly zero. -/
def generateSparklineData (data : List ServiceRequest) (m : Metric) (today : ℤ)
    (days : ℕ) : List ℚ :=
  let result := sparkWindow data m today days
  if result.all (fun v => decide (v = 0)) then sparklinePlaceholder else result

/-- The window as the specification describes it: one point per calendar day,
day `i` of the window being `today - (days - 1) + i`. -/
def specSparkSeries (data : List ServiceRequest) (m : Metric) (today : ℤ)
    (days : ℕ) : List ℚ :=
  (List.range days).map
    (fun i : ℕ => sparkPoint data m (today - (days : ℤ) + 1 + (i : ℤ)))

theorem specSparkSeries_succ (data : List ServiceRequest) (m : Metric)
    (today : ℤ) (n : ℕ) :
    specSparkSeries data m today (n + 1) =
      sparkPoint data m (today - (n : ℤ)) :: specSparkSeries data m today n := by
  unfold specSparkSeries
  rw [List.range_succ_eq_map, List.map_cons, List.map_map]
  congr 1
  · congr 1
    push_cast
    ring
  · refine List.map_congr_left ?_
    intro i _
    simp only [Function.comp_apply]
    congr 1
    push_cast
    ring

theorem sparkWindow_eq_specSparkSeries (data : List ServiceRequest) (m : Metric)
    (today : ℤ) (days : ℕ) :
    sparkWindow data m today days = specSparkSeries data m today days := by
  induction days with
  | zero => simp [sparkWindow, specSparkSeries]
  | succ n ih =>
    rw [sparkWindow, ih, specSparkSeries_succ]

/-- C3: for every record collection and sparkline metric, the rolling 7-day
series has one point per calendar day — the records whose `requestDate` equals
that day, reduced by the metric's own reducer, for the seven days ending
`today` — and when every computed point is exactly zero the whole series is
replaced by the literal `[1, 2, 1, 3, 2, 4, 3]`; otherwise the computed per-day
series is returned unchanged. -/
theorem generateSparklineData_window_and_fallback (data : List ServiceRequest)
    (m : Metric) (today : ℤ) :
    specSparkSeries data m today 7 =
      [sparkPoint data m (today - 6), sparkPoint data m (today - 5),
        sparkPoint data m (today - 4), sparkPoint data m (today - 3),
        sparkPoint data m (today - 2), sparkPoint data m (today - 1),
        sparkPoint data m today] ∧
    ((∀ x ∈ specSparkSeries data m today 7, x = 0) →
      generateSparklineData data m today 7 = sparklinePlaceholder) ∧
    ((∃ x ∈ specSparkSeries data m today 7, x ≠ 0) →
      generateSparklineData data m today 7 = specSparkSeries data m today 7) := by
  refine ⟨?_, ?_, ?_⟩
  · simp only [specSparkSeries]
    norm_num [List.range_succ]
    refine ⟨?_, ?_, ?_, ?_, ?_, ?_, ?_⟩ <;> (congr 1; ring)
  · intro h
    have hc : (specSparkSeries data m today 7).all (fun v => decide (v = 0)) = true := by
      rw [List.all_eq_true]
      intro x hx
      simpa using h x hx
    simp [generateSparklineData, sparkWindow_eq_specSparkSeries, hc]
  · rintro ⟨x, hx, hxne⟩
    have hc : ¬ ((specSparkSeries data m today 7).all (fun v => decide (v = 0)) = true) := by
      rw [List.all_eq_true]
      intro hall
      exact hxne (by simpa using hall x hx)
    rw [Bool.not_eq_true] at hc
    simp [generateSparklineData, sparkWindow_eq_specSparkSeries, hc]

/-- C3 witness: on the empty collection every point of the 7-day window is 0,
so the engine returns the placeholder sequence. -/
theorem generateSparklineData_window_and_fallback_witness :
    generateSparklineData [] Metric.count 0 7 = sparklinePlaceholder :=
  (generateSparklineData_window_and_fallback [] Metric.count 0).2.1 (by decide)

/-- A record with the given response and resolution durations and arbitrary
fixed values for the remaining fields; used to separate the sparkline's
hard-coded breach test from the configurable one. -/
def mkBreachRecord (tr ts : ℚ) : ServiceRequest :=
  { requestId := "REQ-X", accountName := "X", vertical := Vertical.Grocery,
    siteCount := 1, issueCategory := IssueCategory.NetworkIssues, requestDate := 0,
    status := Status.Resolved, urgency := Urgency.Medium, priority := Priority.Medium,
    timeToRespond := tr, timeToResolution := ts, resolutionDate := 0,
    accountHealth := AccountHealth.Engaged }

/-- C10: the sparkline's per-day SLA-breach reducer counts records with
`timeToRespond > 12` or `timeToResolution > 72` using the hard-coded constants
12 and 72 — for every collection, independent of any thresholds value — and
for any configured positive thresholds different from the default `{12, 72}`
there is a record collection on which this per-day count differs from
`getBreachCount` applied to the same records. -/
theorem sparkline_slaBreaches_hardcoded :
    (∀ R : List ServiceRequest,
      metricReduce Metric.slaBreaches R =
        (R.countP (fun d =>
          decide ((12 : ℚ) < d.timeToRespond ∨ (72 : ℚ) < d.timeToResolution)) : ℚ)) ∧
    (∀ t : SLAThresholds, 0 < t.responseTimeHours → 0 < t.resolutionTimeHours →
      t ≠ defaultThresholds →
      ∃ R : List ServiceRequest,
        metricReduce Metric.slaBreaches R ≠ (getBreachCount t R : ℚ)) := by
  constructor
  · intro R
    simp only [metricReduce]
    rw [List.countP_eq_length_filter]
    have hpred :
        R.filter (fun d =>
            decide ((12 : ℚ) < d.timeToRespond) || decide ((72 : ℚ) < d.timeToResolution)) =
          R.filter (fun d =>
            decide ((12 : ℚ) < d.timeToRespond ∨ (72 : ℚ) < d.timeToResolution)) :=
      List.filter_congr (fun d _ => by simp)
    rw [hpred]
  · intro t h1 h2 hne
    obtain ⟨r, s⟩ := t
    rcases lt_trichotomy r 12 with hr | hr | hr
    · refine ⟨[mkBreachRecord 12 (min s 72)], ?_⟩
      have e1 : ¬ ((12 : ℚ) < 12) := lt_irrefl 12
      have e2 : ¬ ((72 : ℚ) < min s 72) := not_lt.mpr (min_le_right s 72)
      have e3 : ¬ (s < min s 72) := not_lt.mpr (min_le_left s 72)
      simp [metricReduce, getBreachCount, isBreachingSLA, isBreachingResponse,
        isBreachingResolution, mkBreachRecord, e1, e2, e3, hr]
    · rcases lt_trichotomy s 72 with hs | hs | hs
      · refine ⟨[mkBreachRecord 12 72], ?_⟩
        have e1 : ¬ ((12 : ℚ) < 12) := lt_irrefl 12
        have e2 : ¬ ((72 : ℚ) < 72) := lt_irrefl 72
        have e3 : ¬ (r < 12) := by rw [hr]; exact lt_irrefl 12
        simp [metricReduce, getBreachCount, isBreachingSLA, isBreachingResponse,
          isBreachingResolution, mkBreachRecord, e1, e2, e3, hs]
      · exact absurd (by rw [hr, hs]; rfl) hne
      · refine ⟨[mkBreachRecord 12 s], ?_⟩
        have e1 : ¬ ((12 : ℚ) < 12) := lt_irrefl 12
        have e3 : ¬ (r < 12) := by rw [hr]; exact lt_irrefl 12
        have e4 : ¬ (s < s) := lt_irrefl s
        simp [metricReduce, getBreachCount, isBreachingSLA, isBreachingResponse,
          isBreachingResolution, mkBreachRecord, e1, e3, e4, hs]
    · refine ⟨[mkBreachRecord r (min s 72)], ?_⟩
      have e2 : ¬ ((72 : ℚ) < min s 72) := not_lt.mpr (min_le_right s 72)
      have e3 : ¬ (r < r) := lt_irrefl r
      have e4 : ¬ (s < min s 72) := not_lt.mpr (min_le_left s 72)
      simp [metricReduce, getBreachCount, isBreachingSLA, isBreachingResponse,
        isBreachingResolution, mkBreachRecord, e2, e3, e4, hr]

/-- C10 witness: under thresholds `{13, 72}` there is a collection where the
hard-coded sparkline breach count differs from `getBreachCount`. -/
theorem sparkline_slaBreaches_hardcoded_witness :
    ∃ R : List ServiceRequest,
      metricReduce Metric.slaBreaches R ≠
        (getBreachCount { responseTimeHours := 13, resolutionTimeHours := 72 } R : ℚ) :=
  sparkline_slaBreaches_hardcoded.2
    { responseTimeHours := 13, resolutionTimeHours := 72 }
    (by norm_num) (by norm_num) (by simp [defaultThresholds])

/-- A JS division `a / b` whose result can be non-finite: for `b = 0` the JS
value is `NaN` (or `±Infinity`), embedded as `none`. -/
def jsDiv (a b : ℚ) : Option ℚ :=
  if b = 0 then none else some (a / b)

/-- `avgResponseTime` in `KPICards` (src/src/components/FilterPresets.tsx,
lines 335-337): guarded mean, 0 for an empty collection. -/
def avgResponseTimeKPI (data : List ServiceRequest) : ℚ :=
  if 0 < data.length then
    (data.foldl (fun sum d => sum + d.timeToRespond) 0) / (data.length : ℚ)
  else 0

/-- `avgResolutionTime` in `KPICards` (src/src/components/FilterPresets.tsx,
lines 338-340): guarded mean, 0 for an empty collection. -/
def avgResolutionTimeKPI (data : List ServiceRequest) : ℚ :=
  if 0 < data.length then
    (data.foldl (fun sum d => sum + d.timeToResolution) 0) / (data.length : ℚ)
  else 0

/-- `percentChange` in `KPICard` (src/src/components/FilterPresets.tsx,
lines 192-194): `previousValue && previousValue !== 0 ? ((value - previousValue)
/ previousValue) * 100 : null`; an absent or zero previous value is falsy, so
the comparison is not computed (`none`). -/
def percentChange (value : ℚ) (previousValue : Option ℚ) : Option ℚ :=
  match previousValue with
  | some p => if p = 0 then none else some ((value - p) / p * 100)
  | none => none

/-- `resolvedCount` in `KPICards` (src/src/components/FilterPresets.tsx,
line 333). -/
def resolvedCount (data : List ServiceRequest) : ℕ :=
  (data.filter (fun d => decide (d.status = Status.Resolved))).length

/-- `inProgressCount` in `KPICards` (src/src/components/FilterPresets.tsx,
line 334). -/
def inProgressCount (data : List ServiceRequest) : ℕ :=
  (data.filter (fun d => decide (d.status = Status.InProgress))).length

/-- The "Resolved" card's subtitle percentage
`(resolvedCount / totalRequests) * 100` (src/src/components/FilterPresets.tsx,
line 429): an unguarded division by `totalRequests = filteredData.length`. -/
def resolvedSubtitlePct (data : List ServiceRequest) : Option ℚ :=
  (jsDiv (resolvedCount data : ℚ) (data.length : ℚ)).map (fun x => x * 100)

/-- The "In Progress" card's subtitle percentage
`(inProgressCount / totalRequests) * 100` (src/src/components/FilterPresets.tsx,
line 441): an unguarded division by `totalRequests`. -/
def inProgressSubtitlePct (data : List ServiceRequest) : Option ℚ :=
  (jsDiv (inProgressCount data : ℚ) (data.length : ℚ)).map (fun x => x * 100)

/-- C4 counterexample: on an empty filtered collection the Resolved and
In Progress subtitle percentages divide by `totalRequests = 0`, producing the
non-finite JS value `NaN` (embedded as `none`) — a numeric error does
propagate, contrary to the claim. -/
theorem subtitle_pct_nan_on_empty :
    resolvedSubtitlePct [] = none ∧ inProgressSubtitlePct [] = none := by
  constructor <;> rfl

/-- C4 (amended): the engine's averages are guarded (an empty collection yields
the sentinel 0), the period-over-period percent change is not computed when the
previous value is absent or zero and is the guarded quotient otherwise, but the
Resolved / In Progress subtitle percentages are unguarded: they are a finite
number iff the filtered collection is non-empty, and on an empty collection
their zero denominator produces a non-finite result. -/
theorem kpi_division_guards_amended (data : List ServiceRequest) :
    avgResponseTimeKPI [] = 0 ∧
    avgResolutionTimeKPI [] = 0 ∧
    (∀ v : ℚ, percentChange v none = none ∧ percentChange v (some 0) = none) ∧
    (∀ v p : ℚ, p ≠ 0 → percentChange v (some p) = some ((v - p) / p * 100)) ∧
    (resolvedSubtitlePct data = none ↔ data.length = 0) ∧
    (inProgressSubtitlePct data = none ↔ data.length = 0) := by
  refine ⟨rfl, rfl, ?_, ?_, ?_, ?_⟩
  · intro v
    exact ⟨rfl, by simp [percentChange]⟩
  · intro v p hp
    simp [percentChange, hp]
  · simp [resolvedSubtitlePct, jsDiv]
  · simp [inProgressSubtitlePct, jsDiv]

/-- C4 witness: the amended theorem instantiated on a one-record collection and
on concrete percent-change inputs. -/
theorem kpi_division_guards_amended_witness :
    percentChange 10 (some 5) = some 100 ∧
    (resolvedSubtitlePct [exampleRecordA] = none ↔ ([exampleRecordA] : List ServiceRequest).length = 0) := by
  constructor
  · have h := (kpi_division_guards_amended []).2.2.2.1 10 5 (by norm_num)
    rw [h]
    norm_num
  · exact (kpi_division_guards_amended [exampleRecordA]).2.2.2.2.1

/-- The date-range preset names (src/src/contexts/FilterContext.tsx, line 7). -/
inductive DatePreset
  | last7
  | last30
  | last90
  | ytd
  | custom
  | all
  deriving DecidableEq, Repr

/-- `DateRange` (src/src/contexts/FilterContext.tsx, lines 4-8). The source
field `end` is a reserved word in Lean and is embedded as `stop`. Dates are
integer day numbers. -/
structure DateRange where
  start : Option ℤ
  stop : Option ℤ
  preset : DatePreset
  deriving DecidableEq, Repr

/-- `defaultDateRange` (src/src/contexts/FilterContext.tsx, lines 39-43). -/
def defaultDateRange : DateRange :=
  { start := none, stop := none, preset := DatePreset.all }

/-- `FilterPreset` (src/src/contexts/FilterContext.tsx, lines 17-22). -/
structure FilterPreset where
  id : String
  name : String
  filters : ChartFilters
  dateRange : DateRange
  deriving DecidableEq, Repr

/-- The state held by `FilterProvider` (src/src/contexts/FilterContext.tsx):
the chart filters, the date range and the preset collection. -/
structure FilterState where
  chartFilters : ChartFilters
  dateRange : DateRange
  presets : List FilterPreset
  deriving DecidableEq, Repr

/-- The per-dimension argument of `setChartFilter(key, value)`. -/
inductive ChartFilterSet
  | vertical (v : Option Vertical)
  | status (v : Option Status)
  | issueCategory (v : Option IssueCategory)
  | accountHealth (v : Option AccountHealth)
  deriving DecidableEq, Repr

/-- `setChartFilter` (src/src/contexts/FilterContext.tsx, lines 60-62): updates
exactly the named dimension, leaves everything else untouched. -/
def setChartFilter (s : FilterState) (u : ChartFilterSet) : FilterState :=
  match u with
  | ChartFilterSet.vertical v =>
      { s with chartFilters := { s.chartFilters with vertical := v } }
  | ChartFilterSet.status v =>
      { s with chartFilters := { s.chartFilters with status := v } }
  | ChartFilterSet.issueCategory v =>
      { s with chartFilters := { s.chartFilters with issueCategory := v } }
  | ChartFilterSet.accountHealth v =>
      { s with chartFilters := { s.chartFilters with accountHealth := v } }

/-- `clearChartFilters` (src/src/contexts/FilterContext.tsx, lines 64-66). -/
def clearChartFilters (s : FilterState) : FilterState :=
  { s with chartFilters := defaultChartFilters }

/-- `setDateRange` (src/src/contexts/FilterContext.tsx, line 54 setter):
replaces the whole DateRange. -/
def setDateRange (s : FilterState) (r : DateRange) : FilterState :=
  { s with dateRange := r }

/-- `savePreset` (src/src/contexts/FilterContext.tsx, lines 70-80): captures
the current chart filters and date range under the given name and the freshly
generated id (`Date.now().toString()` in the source, passed here as the `id`
argument) and appends the new preset to the collection. The `newPreset` local
of the source is split out as its own definition. -/
def newPreset (s : FilterState) (name id : String) : FilterPreset :=
  { id := id, name := name, filters := s.chartFilters, dateRange := s.dateRange }

def savePreset (s : FilterState) (name id : String) : FilterState :=
  { s with presets := s.presets ++ [newPreset s name id] }

/-- `loadPreset` (src/src/contexts/FilterContext.tsx, lines 82-88): if a preset
with the id is found, atomically replaces chart filters and date range with its
stored values; otherwise a silent no-op. -/
def loadPreset (s : FilterState) (id : String) : FilterState :=
  match s.presets.find? (fun p => decide (p.id = id)) with
  | some p => { s with chartFilters := p.filters, dateRange := p.dateRange }
  | none => s

/-- `deletePreset` (src/src/contexts/FilterContext.tsx, lines 90-94):
`presets.filter(p => p.id !== id)`. -/
def deletePreset (s : FilterState) (id : String) : FilterState :=
  { s with presets := s.presets.filter (fun p => decide (p.id ≠ id)) }

/-- The mutations the round-trip claim allows between a save and a load. -/
inductive InterveningOp
  | setFilter (u : ChartFilterSet)
  | clearFilters
  | setRange (r : DateRange)
  deriving DecidableEq, Repr

def applyOp (s : FilterState) : InterveningOp → FilterState
  | InterveningOp.setFilter u => setChartFilter s u
  | InterveningOp.clearFilters => clearChartFilters s
  | InterveningOp.setRange r => setDateRange s r

def applyOps (s : FilterState) (ops : List InterveningOp) : FilterState :=
  ops.foldl applyOp s

theorem applyOp_presets (s : FilterState) (op : InterveningOp) :
    (applyOp s op).presets = s.presets := by
  cases op with
  | setFilter u => cases u <;> rfl
  | clearFilters => rfl
  | setRange r => rfl

theorem applyOps_presets (ops : List InterveningOp) (s : FilterState) :
    (applyOps s ops).presets = s.presets := by
  induction ops generalizing s with
  | nil => rfl
  | cons op ops ih =>
    rw [applyOps, List.foldl_cons]
    rw [show List.foldl applyOp (applyOp s op) ops = applyOps (applyOp s op) ops from rfl]
    rw [ih, applyOp_presets]

theorem find?_append_fresh (l : List FilterPreset) (P : FilterPreset)
    (h : ∀ p ∈ l, p.id ≠ P.id) :
    (l ++ [P]).find? (fun p => decide (p.id = P.id)) = some P := by
  induction l with
  | nil => simp [List.find?]
  | cons q l ih =>
    have hq : decide (q.id = P.id) = false :=
      decide_eq_false (h q (List.mem_cons_self q l))
    rw [List.cons_append, List.find?_cons_of_neg]
    · exact ih (fun p hp => h p (List.mem_cons_of_mem q hp))
    · simp [hq]

/-- C5: for every store state, saving a preset under a fresh id and later
loading that id restores both the chart filters and the date range exactly as
they were at save time, whatever sequence of `setChartFilter`,
`clearChartFilters` and `setDateRange` mutations happened in between. -/
theorem savePreset_loadPreset_roundtrip (s : FilterState) (name id : String)
    (ops : List InterveningOp) (hfresh : ∀ p ∈ s.presets, p.id ≠ id) :
    (loadPreset (applyOps (savePreset s name id) ops) id).chartFilters = s.chartFilters ∧
    (loadPreset (applyOps (savePreset s name id) ops) id).dateRange = s.dateRange := by
  have hp : (applyOps (savePreset s name id) ops).presets =
      s.presets ++ [newPreset s name id] := by
    rw [applyOps_presets]
    rfl
  have hfind : (applyOps (savePreset s name id) ops).presets.find?
      (fun p => decide (p.id = id)) = some (newPreset s name id) := by
    rw [hp]
    exact find?_append_fresh s.presets (newPreset s name id) hfresh
  constructor
  · unfold loadPreset
    rw [hfind]
    rfl
  · unfold loadPreset
    rw [hfind]
    rfl

/-- C6: under the claim's own premise that saved presets carry unique ids
(pairwise-distinct ids in the collection), `deletePreset id` removes exactly
the preset with that id and leaves all other entries in their original relative
order; when no preset has the id the call is a silent no-op; and saving under a
fresh id keeps the ids pairwise distinct. -/
theorem deletePreset_removes_exactly_one (s : FilterState) (id : String)
    (hnd : (s.presets.map (fun p => p.id)).Nodup) :
    ((∀ p ∈ s.presets, p.id ≠ id) → deletePreset s id = s) ∧
    (∀ l1 P l2, s.presets = l1 ++ P :: l2 → P.id = id →
      (deletePreset s id).presets = l1 ++ l2) ∧
    (∀ name nid, nid ∉ s.presets.map (fun p => p.id) →
      ((savePreset s name nid).presets.map (fun p => p.id)).Nodup) := by
  refine ⟨?_, ?_, ?_⟩
  · intro h
    have hfil : s.presets.filter (fun p => decide (p.id ≠ id)) = s.presets := by
      rw [List.filter_eq_self]
      intro p hp
      simpa using h p hp
    unfold deletePreset
    rw [hfil]
  · intro l1 P l2 hsplit hPid
    have hids := hnd
    rw [hsplit, List.map_append, List.map_cons, List.nodup_append] at hids
    obtain ⟨hnd1, hnd2, hdisj⟩ := hids
    have hP1 : P.id ∉ l1.map (fun p => p.id) := by
      intro hmem
      exact hdisj hmem (List.mem_cons_self P.id _)
    have hP2 : P.id ∉ l2.map (fun p => p.id) := (List.nodup_cons.mp hnd2).1
    have hfil1 : l1.filter (fun p => decide (p.id ≠ id)) = l1 := by
      rw [List.filter_eq_self]
      intro p hp
      have : p.id ≠ P.id := fun he => hP1 (he ▸ List.mem_map_of_mem (fun p => p.id) hp)
      simpa [hPid] using this
    have hfil2 : l2.filter (fun p => decide (p.id ≠ id)) = l2 := by
      rw [List.filter_eq_self]
      intro p hp
      have : p.id ≠ P.id := fun he => hP2 (he ▸ List.mem_map_of_mem (fun p => p.id) hp)
      simpa [hPid] using this
    have hPfalse : decide (P.id ≠ id) = false := by
      simp [hPid]
    unfold deletePreset
    rw [hsplit, List.filter_append, List.filter_cons, hPfalse]
    rw [if_neg Bool.false_ne_true, hfil1, hfil2]
  · intro name nid hni
    simp only [savePreset, newPreset, List.map_append, List.map_cons, List.map_nil]
    refine List.Nodup.append hnd (List.nodup_singleton nid) ?_
    intro a ha hb
    rw [List.mem_singleton] at hb
    exact hni (hb ▸ ha)

def demoPreset1 : FilterPreset :=
  { id := "1", name := "p1", filters := defaultChartFilters, dateRange := defaultDateRange }

def demoPreset2 : FilterPreset :=
  { id := "2", name := "p2", filters := defaultChartFilters, dateRange := defaultDateRange }

def demoPresetState : FilterState :=
  { chartFilters := defaultChartFilters, dateRange := defaultDateRange,
    presets := [demoPreset1, demoPreset2] }

/-- C6 witness: deleting id "2" from the two-preset collection removes exactly
the second entry and keeps the first. -/
theorem deletePreset_removes_exactly_one_witness :
    (deletePreset demoPresetState "2").presets = [demoPreset1] := by
  have h := (deletePreset_removes_exactly_one demoPresetState "2" (by decide)).2.1
    [demoPreset1] demoPreset2 [] rfl rfl
  simpa using h

def demoSaveState : FilterState :=
  { chartFilters :=
      { vertical := some Vertical.Fuel, status := none,
        issueCategory := none, accountHealth := none },
    dateRange := defaultDateRange, presets := [] }

/-- C5 witness: a concrete save / mutate / load run restoring the state at save
time. -/
theorem savePreset_loadPreset_roundtrip_witness :
    (loadPreset (applyOps (savePreset demoSaveState "snapshot" "1700000000000")
        [InterveningOp.clearFilters,
          InterveningOp.setRange
            { start := some 19723, stop := some 19730, preset := DatePreset.custom }])
      "1700000000000").chartFilters = demoSaveState.chartFilters ∧
    (loadPreset (applyOps (savePreset demoSaveState "snapshot" "1700000000000")
        [InterveningOp.clearFilters,
          InterveningOp.setRange
            { start := some 19723, stop := some 19730, preset := DatePreset.custom }])
      "1700000000000").dateRange = demoSaveState.dateRange :=
  savePreset_loadPreset_roundtrip demoSaveState "snapshot" "1700000000000"
    [InterveningOp.clearFilters,
      InterveningOp.setRange
        { start := some 19723, stop := some 19730, preset := DatePreset.custom }]
    (by decide)

/-- `ITEMS_PER_PAGE` (src/src/components/DataTable.tsx, line 13). -/
def ITEMS_PER_PAGE : ℕ := 50

/-- The filter/search/pagination slice of the `DataTable` component state
(src/src/components/DataTable.tsx, lines 110-119): the free-text search, the
six per-column enum filters (the empty select value is `none`) and the 1-based
page index. The sort and row-expansion state is not touched by any operation
below and is omitted. -/
structure TableState where
  search : String
  verticalFilter : Option Vertical
  statusFilter : Option Status
  categoryFilter : Option IssueCategory
  urgencyFilter : Option Urgency
  priorityFilter : Option Priority
  healthFilter : Option AccountHealth
  currentPage : ℕ
  deriving DecidableEq, Repr

/-- The search input's `onChange` (src/src/components/DataTable.tsx,
line 281): set the search text and reset the page to 1. -/
def onSearchChange (s : TableState) (text : String) : TableState :=
  { s with search := text, currentPage := 1 }

/-- The vertical select's `onChange` (src/src/components/DataTable.tsx,
line 287). -/
def onVerticalFilterChange (s : TableState) (v : Option Vertical) : TableState :=
  { s with verticalFilter := v, currentPage := 1 }

/-- The status select's `onChange` (src/src/components/DataTable.tsx,
line 298). -/
def onStatusFilterChange (s : TableState) (v : Option Status) : TableState :=
  { s with statusFilter := v, currentPage := 1 }

/-- The category select's `onChange` (src/src/components/DataTable.tsx,
line 308). -/
def onCategoryFilterChange (s : TableState) (v : Option IssueCategory) : TableState :=
  { s with categoryFilter := v, currentPage := 1 }

/-- The urgency select's `onChange` (src/src/components/DataTable.tsx,
line 321). -/
def onUrgencyFilterChange (s : TableState) (v : Option Urgency) : TableState :=
  { s with urgencyFilter := v, currentPage := 1 }

/-- The priority select's `onChange` (src/src/components/DataTable.tsx,
line 332). -/
def onPriorityFilterChange (s : TableState) (v : Option Priority) : TableState :=
  { s with priorityFilter := v, currentPage := 1 }

/-- The account-health select's `onChange` (src/src/components/DataTable.tsx,
line 343). -/
def onHealthFilterChange (s : TableState) (v : Option AccountHealth) : TableState :=
  { s with healthFilter := v, currentPage := 1 }

/-- The chart-filter sync effect (src/src/components/DataTable.tsx,
lines 128-141): each non-null shared chart filter overwrites the matching local
column filter; nothing else in the state is written. -/
def syncChartFilters (s : TableState) (cf : ChartFilters) : TableState :=
  let s1 := match cf.vertical with
    | some v => { s with verticalFilter := some v }
    | none => s
  let s2 := match cf.status with
    | some v => { s1 with statusFilter := some v }
    | none => s1
  let s3 := match cf.issueCategory with
    | some v => { s2 with categoryFilter := some v }
    | none => s2
  match cf.accountHealth with
  | some v => { s3 with healthFilter := some v }
  | none => s3

def demoTableState : TableState :=
  { search := "", verticalFilter := none, statusFilter := none,
    categoryFilter := none, urgencyFilter := none, priorityFilter := none,
    healthFilter := none, currentPage := 3 }

/-- C7 counterexample: from a table state on page 3, activating the shared
chart filter `vertical = Restaurant` changes the effective filtering (the local
vertical filter is overwritten) yet the page index stays 3 instead of resetting
to 1; so a filter change does not always reset the page. -/
theorem page_not_reset_on_chart_filter_change :
    (syncChartFilters demoTableState
        { vertical := some Vertical.Restaurant, status := none,
          issueCategory := none, accountHealth := none }).verticalFilter =
      some Vertical.Restaurant ∧
    (syncChartFilters demoTableState
        { vertical := some Vertical.Restaurant, status := none,
          issueCategory := none, accountHealth := none }).currentPage = 3 ∧
    (3 : ℕ) ≠ 1 := by
  refine ⟨rfl, rfl, by norm_num⟩

/-- C7 (amended): the page size is fixed at 50 and the page index resets to 1
whenever the search text or one of the six per-column filters changes through
its own control; but syncing the shared chart filters into the table leaves the
page index unchanged (and a date-range change does not touch the table state at
all), so those shared-filter changes do not reset the page. -/
theorem page_reset_on_local_filter_changes (s : TableState) :
    ITEMS_PER_PAGE = 50 ∧
    (∀ text, (onSearchChange s text).currentPage = 1) ∧
    (∀ v, (onVerticalFilterChange s v).currentPage = 1) ∧
    (∀ v, (onStatusFilterChange s v).currentPage = 1) ∧
    (∀ v, (onCategoryFilterChange s v).currentPage = 1) ∧
    (∀ v, (onUrgencyFilterChange s v).currentPage = 1) ∧
    (∀ v, (onPriorityFilterChange s v).currentPage = 1) ∧
    (∀ v, (onHealthFilterChange s v).currentPage = 1) ∧
    (∀ cf, (syncChartFilters s cf).currentPage = s.currentPage) := by
  refine ⟨rfl, fun _ => rfl, fun _ => rfl, fun _ => rfl, fun _ => rfl,
    fun _ => rfl, fun _ => rfl, fun _ => rfl, ?_⟩
  intro cf
  obtain ⟨ov, os, oc, oh⟩ := cf
  cases ov <;> cases os <;> cases oc <;> cases oh <;> rfl

/-- C7 witness: the amended theorem instantiated at the demo state. -/
theorem page_reset_on_local_filter_changes_witness :
    (onSearchChange demoTableState "acme").currentPage = 1 ∧
    (syncChartFilters demoTableState defaultChartFilters).currentPage =
      demoTableState.currentPage :=
  ⟨(page_reset_on_local_filter_changes demoTableState).2.1 "acme",
    (page_reset_on_local_filter_changes demoTableState).2.2.2.2.2.2.2.2
      defaultChartFilters⟩

/-- One step of the `counts[key] = (counts[key] || 0) + 1` accumulation in the
`Charts` aggregations (src/unnamed/part_001, lines 79-109), over the insertion
-ordered key/value pairs of a JS object: an existing key is incremented in
place, a new key is appended. -/
def bump {κ : Type} [DecidableEq κ] : List (κ × ℕ) → κ → List (κ × ℕ)
  | [], k => [(k, 1)]
  | (k', c) :: rest, k =>
      if k' = k then (k', c + 1) :: rest else (k', c) :: bump rest k

/-- The `counts` object of a `Charts` aggregation after the `forEach`, read
back with `Object.entries` (src/unnamed/part_001): JS objects with
non-integer-like string keys enumerate in insertion order, which this
association list preserves. -/
def groupCounts {α κ : Type} [DecidableEq κ] (data : List α) (key : α → κ) :
    List (κ × ℕ) :=
  data.foldl (fun acc d => bump acc (key d)) []

/-- The distinct values of a list in first-occurrence order. -/
def firstOccurrences {κ : Type} [DecidableEq κ] (l : List κ) : List κ :=
  l.foldl (fun acc k => if k ∈ acc then acc else acc ++ [k]) []

/-- The count an association list holds for a value (0 when absent). -/
def lookupCount {κ : Type} [DecidableEq κ] : List (κ × ℕ) → κ → ℕ
  | [], _ => 0
  | (k', c) :: rest, v => if k' = v then c else lookupCount rest v

/-- `verticalData` (src/unnamed/part_001, lines 79-85). -/
def verticalData (data : List ServiceRequest) : List (Vertical × ℕ) :=
  groupCounts data (fun d => d.vertical)

/-- `statusData` (src/unnamed/part_001, lines 87-93). -/
def statusData (data : List ServiceRequest) : List (Status × ℕ) :=
  groupCounts data (fun d => d.status)

/-- `categoryData` (src/unnamed/part_001, lines 95-101). -/
def categoryData (data : List ServiceRequest) : List (IssueCategory × ℕ) :=
  groupCounts data (fun d => d.issueCategory)

/-- `healthData` (src/unnamed/part_001, lines 103-109). -/
def healthData (data : List ServiceRequest) : List (AccountHealth × ℕ) :=
  groupCounts data (fun d => d.accountHealth)

theorem bump_keys {κ : Type} [DecidableEq κ] (acc : List (κ × ℕ)) (k : κ) :
    (bump acc k).map Prod.fst =
      if k ∈ acc.map Prod.fst then acc.map Prod.fst
      else acc.map Prod.fst ++ [k] := by
  induction acc with
  | nil => simp [bump]
  | cons p rest ih =>
    obtain ⟨k', c⟩ := p
    by_cases hk : k' = k
    · simp [bump, hk]
    · simp only [bump, if_neg hk, List.map_cons]
      rw [ih]
      have hne : ¬ (k = k') := fun he => hk he.symm
      by_cases hmem : k ∈ rest.map Prod.fst <;>
        simp [hmem, hne]

theorem bump_lookup {κ : Type} [DecidableEq κ] (acc : List (κ × ℕ)) (k v : κ) :
    lookupCount (bump acc k) v =
      lookupCount acc v + (if k = v then 1 else 0) := by
  induction acc with
  | nil =>
    by_cases hv : k = v <;> simp [bump, lookupCount, hv]
  | cons p rest ih =>
    obtain ⟨k', c⟩ := p
    by_cases hk : k' = k
    · subst hk
      by_cases hv : k' = v <;> simp [bump, lookupCount, hv]
    · simp only [bump, if_neg hk]
      by_cases hv : k' = v
      · have hkv : ¬ (k = v) := fun he => hk (hv.trans he.symm)
        simp [lookupCount, hv, hkv]
      · simp [lookupCount, hv, ih]

theorem groupCounts_go_keys {α κ : Type} [DecidableEq κ] (key : α → κ)
    (l : List α) (acc : List (κ × ℕ)) :
    ((l.foldl (fun a d => bump a (key d)) acc).map Prod.fst) =
      (l.map key).foldl (fun a k => if k ∈ a then a else a ++ [k])
        (acc.map Prod.fst) := by
  induction l generalizing acc with
  | nil => rfl
  | cons d l ih =>
    rw [List.foldl_cons, ih, List.map_cons, List.foldl_cons, bump_keys]

theorem groupCounts_go_lookup {α κ : Type} [DecidableEq κ] (key : α → κ)
    (l : List α) (acc : List (κ × ℕ)) (v : κ) :
    lookupCount (l.foldl (fun a d => bump a (key d)) acc) v =
      lookupCount acc v + l.countP (fun d => decide (key d = v)) := by
  induction l generalizing acc with
  | nil => simp
  | cons d l ih =>
    rw [List.foldl_cons, ih, bump_lookup, List.countP_cons]
    simp only [decide_eq_true_eq]
    ring

/-- C8: for every chosen categorical dimension (an arbitrary key function),
the grouped (value, count) aggregation over a collection lists the distinct
key values in first-occurrence order of the collection — not sorted — and maps
each value to the number of records carrying it; in particular grouping the
spec's two example records by status yields `[(Resolved, 1), (In Progress, 1)]`
in exactly that order. -/
theorem groupCounts_first_occurrence_order {κ : Type} [DecidableEq κ]
    (data : List ServiceRequest) (key : ServiceRequest → κ) :
    ((groupCounts data key).map Prod.fst = firstOccurrences (data.map key)) ∧
    (∀ v, lookupCount (groupCounts data key) v =
      data.countP (fun d => decide (key d = v))) ∧
    statusData [exampleRecordA, exampleRecordB] =
      [(Status.Resolved, 1), (Status.InProgress, 1)] := by
  refine ⟨?_, ?_, by decide⟩
  · rw [groupCounts, groupCounts_go_keys, firstOccurrences]
    rfl
  · intro v
    rw [groupCounts, groupCounts_go_lookup]
    simp [lookupCount]

/-- C8 witness: on the example records, the status dimension groups in
first-occurrence order with the right counts. -/
theorem groupCounts_first_occurrence_order_witness :
    (statusData [exampleRecordA, exampleRecordB]).map Prod.fst =
      firstOccurrences ([exampleRecordA, exampleRecordB].map (fun d => d.status)) ∧
    lookupCount (statusData [exampleRecordA, exampleRecordB]) Status.Resolved = 1 := by
  constructor
  · exact (groupCounts_first_occurrence_order [exampleRecordA, exampleRecordB]
      (fun d => d.status)).1
  · have h := (groupCounts_first_occurrence_order [exampleRecordA, exampleRecordB]
      (fun d => d.status)).2.1 Status.Resolved
    rw [show lookupCount (statusData [exampleRecordA, exampleRecordB]) Status.Resolved =
      lookupCount (groupCounts [exampleRecordA, exampleRecordB] (fun d => d.status))
        Status.Resolved from rfl, h]
    decide

/-- The day number of a proleptic-Gregorian calendar date (days since
1970-01-01), the standard civil-from-days inverse used to embed the ISO date
strings and `Date` values of the source as integers. Only evaluated at
concrete dates here. -/
def daysFromCivil (y m d : ℤ) : ℤ :=
  let yAdj := if m ≤ 2 then y - 1 else y
  let era := (if 0 ≤ yAdj then yAdj else yAdj - 399) / 400
  let yoe := yAdj - era * 400
  let mp := if 2 < m then m - 3 else m + 9
  let doy := (153 * mp + 2) / 5 + d - 1
  let doe := yoe * 365 + yoe / 4 - yoe / 100 + doy
  era * 146097 + doe - 719468

/-- `getPresetDates` (src/src/components/DateRangePicker.tsx, lines 21-48):
"now" is passed as the civil date `(y, m, d)` (the source truncates `now` to
midnight, i.e. to its calendar day); the named presets freeze start/end
relative to that day, `setDate(getDate() - n)` being day-number subtraction. -/
def getPresetDates (y m d : ℤ) (preset : DatePreset) : Option ℤ × Option ℤ :=
  let today := daysFromCivil y m d
  match preset with
  | DatePreset.last7 => (some (today - 7), some today)
  | DatePreset.last30 => (some (today - 30), some today)
  | DatePreset.last90 => (some (today - 90), some today)
  | DatePreset.ytd => (some (daysFromCivil y 1 1), some today)
  | _ => (none, none)

/-- The date-range predicate of the filter pipeline
(src/src/components/DataTable.tsx, lines 146-150, identically in `Charts` and
`DashboardContent`): when the preset is not `all` and at least one bound is
set, a record is rejected if its date is before `start` or after `end`. -/
def passesDateRange (dr : DateRange) (t : ℤ) : Bool :=
  if decide (dr.preset ≠ DatePreset.all) && (dr.start.isSome || dr.stop.isSome) then
    if (match dr.start with
        | some s => decide (t < s)
        | none => false) then false
    else if (match dr.stop with
        | some e => decide (e < t)
        | none => false) then false
    else true
  else true

/-- C9: a record passes the date-range filter iff the preset is `all`, or its
request day is on or after the start bound (when set) and on or before the end
bound (when set), with date-only comparison; and selecting `last7` on a "now"
of 2024-03-10 freezes start = 2024-03-03 and end = 2024-03-10, a record dated
2024-03-02 is excluded and one dated 2024-03-05 is included. -/
theorem dateRange_filter_spec (dr : DateRange) (t : ℤ) :
    (passesDateRange dr t = true ↔
      (dr.preset = DatePreset.all ∨
        ((∀ s, dr.start = some s → s ≤ t) ∧ (∀ e, dr.stop = some e → t ≤ e)))) ∧
    getPresetDates 2024 3 10 DatePreset.last7 =
      (some (daysFromCivil 2024 3 3), some (daysFromCivil 2024 3 10)) ∧
    passesDateRange
      { start := some (daysFromCivil 2024 3 3), stop := some (daysFromCivil 2024 3 10),
        preset := DatePreset.last7 } (daysFromCivil 2024 3 2) = false ∧
    passesDateRange
      { start := some (daysFromCivil 2024 3 3), stop := some (daysFromCivil 2024 3 10),
        preset := DatePreset.last7 } (daysFromCivil 2024 3 5) = true := by
  refine ⟨?_, by decide, by decide, by decide⟩
  obtain ⟨os, oe, pr⟩ := dr
  cases os <;> cases oe <;> cases pr <;> simp [passesDateRange]

/-- C9 witness: the characterization applied at a concrete range and day — the
`all` preset passes every record. -/
theorem dateRange_filter_spec_witness :
    passesDateRange { start := none, stop := none, preset := DatePreset.all } 0 = true :=
  (dateRange_filter_spec { start := none, stop := none, preset := DatePreset.all } 0).1.mpr
    (Or.inl rfl)
